import Mathlib

/-
Verification of the document question-answering chat assistant
(src/main.py) against its natural-language design specification.

The script is a thin RAG pipeline: uploaded files are written to a
temporary file, loaded by a format-specific loader, split into chunks,
embedded into a vector store, and served through a conversational
retrieval chain whose per-turn state lives in the Streamlit session.
External collaborators (document loaders, embeddings, FAISS, the language
models) are modelled as oracles/abstract data; the orchestration logic is
translated from src/main.py.
-/

namespace RagSpec

/-- A loaded text segment with source attribution (langchain `Document`). -/
structure Document where
  page_content : String
  source : String
deriving DecidableEq, Repr

/-- An uploaded file: its name and raw bytes (`file.name`, `file.read()`). -/
structure UploadedFile where
  name : String
  content : List Nat
deriving DecidableEq, Repr

/-- The three loader classes dispatched on extension in `main` (src/main.py lines 105-110). -/
inductive Loader where
  | pyPDFLoader
  | docx2txtLoader
  | textLoader
deriving DecidableEq, Repr

/-- A format-specific parsing failure raised by `loader.load()`. -/
inductive LoadError where
  | parseFailure (msg : String)
deriving DecidableEq, Repr

/-- A generation-model invocation failure (auth, quota, timeout, network). -/
inductive GenError where
  | authError
  | quotaExceeded
  | timeout
  | networkError
deriving DecidableEq, Repr

/-- Index of the last character satisfying `p`, as computed by Python
`str.rfind` (`none` when no such character exists). -/
def rfindIdx (p : Char → Bool) : List Char → Option Nat
  | [] => none
  | c :: cs =>
    match rfindIdx p cs with
    | some i => some (i + 1)
    | none => if p c then some 0 else none

/-- The extension component `os.path.splitext(name)[1]` used at
src/main.py line 101: the suffix starting at the last dot, provided some
non-dot character occurs in the basename before that dot (posixpath
implementation: scan from just after the last separator up to the last
dot). -/
def splitext_ext (name : String) : String :=
  let l := name.data
  let sepIndex : Nat :=
    match rfindIdx (fun c => c = '/') l with
    | some i => i + 1
    | none => 0
  match rfindIdx (fun c => c = '.') l with
  | none => ""
  | some dotIndex =>
    if sepIndex ≤ dotIndex ∧
        ((l.drop sepIndex).take (dotIndex - sepIndex)).any (fun c => c ≠ '.') then
      String.mk (l.drop dotIndex)
    else ""

/-- The if/elif loader dispatch of src/main.py lines 105-110. -/
def selectLoader (file_extension : String) : Option Loader :=
  if file_extension = ".pdf" then some Loader.pyPDFLoader
  else if file_extension = ".docx" ∨ file_extension = ".doc" then some Loader.docx2txtLoader
  else if file_extension = ".txt" then some Loader.textLoader
  else none

/-- Outcome of the per-file ingestion step: the loaded segments (or the
propagated parsing failure) together with whether the temporary file
written for this upload still exists when the step finishes. -/
structure IngestStep where
  result : Except LoadError (List Document)
  temp_file_exists : Bool
deriving Repr

/-- The body of the upload loop of `main` (src/main.py lines 100-114) for
one file. The file's bytes are written to a `NamedTemporaryFile` with
`delete=False` (so the temporary file exists from here on); a loader is
selected from the extension; only when a loader was selected and
`loader.load()` returns (rather than raises) does `os.remove` run. The
loader itself is external and passed as an oracle `load` acting on the
bytes stored in the temporary file. -/
def ingest_file (load : Loader → List Nat → Except LoadError (List Document))
    (f : UploadedFile) : IngestStep :=
  match selectLoader (splitext_ext f.name) with
  | none => { result := Except.ok [], temp_file_exists := true }
  | some k =>
    match load k f.content with
    | Except.error e => { result := Except.error e, temp_file_exists := true }
    | Except.ok docs => { result := Except.ok docs, temp_file_exists := false }

/-- The whole upload loop of `main` (src/main.py lines 99-114): segments of
successive files are accumulated with `text.extend(...)`; a raised parsing
failure aborts the batch. -/
def ingest_files (load : Loader → List Nat → Except LoadError (List Document)) :
    List UploadedFile → Except LoadError (List Document)
  | [] => Except.ok []
  | f :: fs =>
    match (ingest_file load f).result with
    | Except.error e => Except.error e
    | Except.ok docs =>
      match ingest_files load fs with
      | Except.error e => Except.error e
      | Except.ok rest => Except.ok (docs ++ rest)

/-- The `chunk_size=1000` of the `CharacterTextSplitter` at src/main.py line 117. -/
def chunk_size : Nat := 1000

/-- The `chunk_overlap=100` of the `CharacterTextSplitter` at src/main.py line 117. -/
def chunk_overlap : Nat := 100

/-- Python `text.split(sep)` on the character list: the separator-delimited
segments, empty segments included. -/
def splitOnSep (sep : Char) : List Char → List (List Char)
  | [] => [[]]
  | c :: cs =>
    match splitOnSep sep cs with
    | [] => [[]]
    | h :: t => if c = sep then [] :: h :: t else (c :: h) :: t

/-- Modelled from the spec: the windowing fallback of the Chunker for a
single separator-free segment longer than the maximum size — "pack into
windows of a configured maximum size with a configured overlap between
consecutive windows, measured in character count" (§4.2). The splitting
code itself (langchain's `CharacterTextSplitter`) is external to this
repository. Consecutive windows share `chunk_overlap` characters. -/
def windows (cs : List Char) : List (List Char) :=
  if _h : cs.length ≤ chunk_size then [cs]
  else cs.take chunk_size :: windows (cs.drop (chunk_size - chunk_overlap))
termination_by cs.length
decreasing_by
  simp only [List.length_drop, chunk_size, chunk_overlap] at *
  omega

/-- The last `n` characters of `l` (the overlap carried into the next window). -/
def takeRight (n : Nat) (l : List Char) : List Char :=
  l.drop (l.length - n)

/-- Modelled from the spec: the packing pass of the Chunker — "split on a
configured separator (default newline) first, then pack into windows of a
configured maximum size with a configured overlap between consecutive
windows, measured in character count" (§4.2; the actual implementation,
langchain's `CharacterTextSplitter._merge_splits`, is external to this
repository). Segments are greedily packed (re-joined with the separator)
into the current window while it stays within `chunk_size`; when a segment
does not fit, the window is emitted and the next window starts from the
`chunk_overlap`-character suffix of the previous one; a single segment
that exceeds `chunk_size` on its own is cut into character `windows`. -/
def packSegs : List (List Char) → List Char → List (List Char)
  | [], current => if current.isEmpty then [] else [current]
  | seg :: rest, current =>
    let joined := if current.isEmpty then seg else current ++ '\n' :: seg
    if joined.length ≤ chunk_size then
      packSegs rest joined
    else
      let flushed : List (List Char) := if current.isEmpty then [] else [current]
      let keep := takeRight chunk_overlap current
      let restart := if keep.isEmpty then seg else keep ++ '\n' :: seg
      if restart.length ≤ chunk_size then
        flushed ++ packSegs rest restart
      else
        flushed ++ windows seg ++ packSegs rest []

/-- Modelled from the spec: the Chunker on one text (§4.2), with the
configuration of src/main.py line 117 (separator `"\n"`, size 1000,
overlap 100, length measured in characters). -/
def split_text (s : String) : List String :=
  (packSegs (splitOnSep '\n' s.data) []).map (fun c => String.mk c)

/-- The call `text_splitter.split_documents(text)` at src/main.py line 118: each
loaded segment is split and its source metadata copied onto every chunk. -/
def split_documents (docs : List Document) : List Document :=
  docs.flatMap (fun d =>
    (split_text d.page_content).map (fun c => { page_content := c, source := d.source }))

/-- Modelled from the spec: the similarity-index capability (§6) —
`query(vector, k)` returns the top-k payloads; the FAISS store and the
embedding function are external, so a store is abstracted as the function
taking `k` and a query text to the retrieved documents. -/
abbrev VectorStore := Nat → String → List Document

/-- A retriever over a vector store with a fixed `k`
(`vector_store.as_retriever(search_kwargs={"k": 3})`, src/main.py line 74). -/
structure Retriever where
  store : VectorStore
  k : Nat

/-- The call `vector_store.as_retriever(search_kwargs=...)` with the given `k`. -/
def VectorStore.as_retriever (vs : VectorStore) (k : Nat) : Retriever :=
  { store := vs, k := k }

/-- Top-k retrieval through the retriever. -/
def Retriever.get_relevant_documents (r : Retriever) (q : String) : List Document :=
  r.store r.k q

/-- A `HuggingFaceHub` language-model handle: constructing one is pure — it
only records the configuration (src/main.py lines 55-67). -/
structure HuggingFaceHub where
  repo_id : String
  temperature : Rat
  max_length : Nat
  huggingfacehub_api_token : String

/-- The `ConversationBufferMemory(memory_key="chat_history", return_messages=True)`
(src/main.py line 69). -/
structure ConversationBufferMemory where
  memory_key : String
  return_messages : Bool

/-- The chain object assembled by `ConversationalRetrievalChain.from_llm`
(src/main.py lines 72-76): it holds exactly the language model, chain type,
retriever and memory that were passed in. -/
structure ConversationalRetrievalChain where
  llm : HuggingFaceHub
  chain_type : String
  retriever : Retriever
  memory : ConversationBufferMemory

/-- The constructor `ConversationalRetrievalChain.from_llm(llm=..., chain_type=...,
retriever=..., memory=...)`. -/
def ConversationalRetrievalChain.from_llm (llm : HuggingFaceHub) (chain_type : String)
    (retriever : Retriever) (memory : ConversationBufferMemory) :
    ConversationalRetrievalChain :=
  { llm := llm, chain_type := chain_type, retriever := retriever, memory := memory }

/-- The function `create_conversational_chain` (src/main.py lines 53-77), translated
clause by clause: both language-model handles are constructed, but only
`generator_llm` is passed to `from_llm`; `retriever_llm` is a local that
flows nowhere. -/
def create_conversational_chain (vector_store : VectorStore) (hf_api_key : String) :
    ConversationalRetrievalChain :=
  let retriever_llm : HuggingFaceHub :=
    { repo_id := "google/flan-t5-small", temperature := 0.01, max_length := 500,
      huggingfacehub_api_token := hf_api_key }
  let generator_llm : HuggingFaceHub :=
    { repo_id := "google/flan-t5-large", temperature := 0.01, max_length := 500,
      huggingfacehub_api_token := hf_api_key }
  let memory : ConversationBufferMemory :=
    { memory_key := "chat_history", return_messages := true }
  ConversationalRetrievalChain.from_llm generator_llm "stuff"
    (vector_store.as_retriever 3) memory

/-- Modelled from the spec: the chain builder of §9's real contract — "do
not replicate the unused instantiation, and treat only the single
retrieval-index + single generation-model pipeline" — i.e. the same
builder without constructing the retrieval language model. -/
def create_conversational_chain_single_model (vector_store : VectorStore)
    (hf_api_key : String) : ConversationalRetrievalChain :=
  let generator_llm : HuggingFaceHub :=
    { repo_id := "google/flan-t5-large", temperature := 0.01, max_length := 500,
      huggingfacehub_api_token := hf_api_key }
  let memory : ConversationBufferMemory :=
    { memory_key := "chat_history", return_messages := true }
  ConversationalRetrievalChain.from_llm generator_llm "stuff"
    (vector_store.as_retriever 3) memory

/-- Modelled from the spec: the "stuff" prompt-assembly step of the chain
(§4.4 (b): "construct a prompt combining those chunks, the question, and
relevant prior turns"); the exact template is internal to the external
chain implementation. -/
def build_prompt (docs : List Document) (question : String)
    (chat_history : List (String × String)) : String :=
  String.intercalate "\n\n" (docs.map (fun d => d.page_content)) ++ "\n\n" ++
    String.intercalate "\n" (chat_history.map (fun p => p.1 ++ "\n" ++ p.2)) ++
    "\n\nQuestion: " ++ question

/-- Modelled from the spec: executing the chain on one question (§4.4 (a)-(c)):
retrieve the top-k chunks for the question, assemble the prompt, and invoke
the chain's language model (an oracle `llmCall` that may fail). The output
depends only on the chain's stored fields and its inputs. -/
def ConversationalRetrievalChain.run (c : ConversationalRetrievalChain)
    (llmCall : HuggingFaceHub → String → Except GenError String)
    (question : String) (chat_history : List (String × String)) :
    Except GenError String :=
  llmCall c.llm (build_prompt (c.retriever.get_relevant_documents question)
    question chat_history)

/-- The Streamlit session state touched by the script: `history` (turn
pairs), `generated` (answer transcript), `past` (user-text transcript) and
`hf_api_key` (`None` until entered). -/
structure SessionState where
  history : List (String × String)
  generated : List String
  past : List String
  hf_api_key : Option String
deriving DecidableEq, Repr

/-- The function `initialize_session_state` (src/main.py lines 14-22) on a fresh
session: empty history, one greeting entry in each transcript list, no
API key. -/
def init_session_state : SessionState :=
  { history := []
    generated := ["Hello! Ask me anything about your documents."]
    past := ["Hey! 👋"]
    hf_api_key := none }

/-- The function `conversation_chat(query, chain, history)` (src/main.py lines 25-28):
the chain is invoked first; only when it returns is the (query, answer)
pair appended to the history; a raised failure propagates before the
append. The chain is abstracted as a function that may fail. -/
def conversation_chat (query : String)
    (chain : String → List (String × String) → Except GenError String)
    (history : List (String × String)) :
    Except GenError (String × List (String × String)) :=
  match chain query history with
  | Except.error e => Except.error e
  | Except.ok answer => Except.ok (answer, history ++ [(query, answer)])

/-- The submission branch of `display_chat_history` (src/main.py lines
40-44) for one form submission carrying `user_input`: nothing happens for
an empty input (`if submit_button and user_input:`); otherwise
`conversation_chat` runs, and only when it returns are `history` (inside
`conversation_chat`), `past` and `generated` extended; a raised
generation failure leaves every session field as it was. -/
def submit_question
    (chain : String → List (String × String) → Except GenError String)
    (user_input : String) (s : SessionState) : SessionState :=
  if user_input ≠ "" then
    match conversation_chat user_input chain s.history with
    | Except.error _ => s
    | Except.ok (output, h) =>
      { s with history := h
               past := s.past ++ [user_input]
               generated := s.generated ++ [output] }
  else s

/-- The transcript-rendering loop of `display_chat_history` (src/main.py
lines 46-50): for each `i` below `len(generated)` it reads `past[i]` and
`generated[i]`; an out-of-range read (Python `IndexError`) is `none`. -/
def render_go (past generated : List String) : List Nat → Option (List (String × String))
  | [] => some []
  | i :: is =>
    match past[i]?, generated[i]? with
    | some p, some g => (render_go past generated is).map (fun r => (p, g) :: r)
    | _, _ => none

/-- The rendered transcript: the loop over `range(len(generated))`. -/
def render_transcript (s : SessionState) : Option (List (String × String)) :=
  render_go s.past s.generated (List.range s.generated.length)

/-- A sequence of question submissions against one chain. -/
def run_turns (chain : String → List (String × String) → Except GenError String)
    (inputs : List String) (s : SessionState) : SessionState :=
  inputs.foldl (fun st q => submit_question chain q st) s

/-- The API-key entry step of `main` (src/main.py lines 85-88): when the
stored credential is falsy (`None` or empty), the text-input value is
assigned to it. -/
def enter_api_key (entered : String) (s : SessionState) : SessionState :=
  if s.hf_api_key.getD "" = "" then { s with hf_api_key := some entered } else s

/-- The observable actions `main` performs on one script run. -/
inductive MainAction where
  | prompted_api_key
  | warned_api_key
  | ingested (segments : Nat)
  | built_index
  | displayed_chat
deriving DecidableEq, Repr

/-- The document-processing and chat part of `main` (src/main.py lines
93-131): nothing happens without uploads; otherwise the files are
ingested (a parsing failure aborts the batch), chunked, embedded into a
vector store (oracle `faiss`), the chain is built with the stored key, and
the chat form is handled. -/
def main_uploads (load : Loader → List Nat → Except LoadError (List Document))
    (faiss : List Document → VectorStore)
    (llmCall : HuggingFaceHub → String → Except GenError String)
    (user_input : String) (uploaded_files : List UploadedFile)
    (s : SessionState) (acc : List MainAction) :
    Except LoadError (SessionState × List MainAction) :=
  if uploaded_files.isEmpty then Except.ok (s, acc)
  else
    match ingest_files load uploaded_files with
    | Except.error e => Except.error e
    | Except.ok text =>
      let text_chunks := split_documents text
      let vector_store := faiss text_chunks
      let chain := create_conversational_chain vector_store (s.hf_api_key.getD "")
      let s' := submit_question (fun q h => chain.run llmCall q h) user_input s
      Except.ok (s', acc ++ [MainAction.ingested text.length, MainAction.built_index,
        MainAction.displayed_chat])

/-- The function `main` (src/main.py lines 80-131) on one script run over an
already-initialized session: when no credential is stored, the text input
is read and assigned; if it is still empty a warning is shown and `main`
returns with nothing else done; otherwise processing proceeds. -/
def main_step (load : Loader → List Nat → Except LoadError (List Document))
    (faiss : List Document → VectorStore)
    (llmCall : HuggingFaceHub → String → Except GenError String)
    (entered_key user_input : String) (uploaded_files : List UploadedFile)
    (s : SessionState) : Except LoadError (SessionState × List MainAction) :=
  if s.hf_api_key.getD "" = "" then
    let s1 := enter_api_key entered_key s
    if entered_key = "" then
      Except.ok (s1, [MainAction.prompted_api_key, MainAction.warned_api_key])
    else
      main_uploads load faiss llmCall user_input uploaded_files s1
        [MainAction.prompted_api_key]
  else
    main_uploads load faiss llmCall user_input uploaded_files s []

/-- The session states reachable through the script's operations: the
fresh session, an API-key entry, and a form submission against an
arbitrary chain (successful or failing, empty or not). Upload processing
touches no transcript field, so it adds no further transitions on these
fields beyond `submit_question`. -/
inductive Reachable : SessionState → Prop
  | init : Reachable init_session_state
  | enter_key (entered : String) {s : SessionState} :
      Reachable s → Reachable (enter_api_key entered s)
  | submit (chain : String → List (String × String) → Except GenError String)
      (input : String) {s : SessionState} :
      Reachable s → Reachable (submit_question chain input s)

/-- Concrete unsupported-extension upload used as a test vector. -/
def csvFile : UploadedFile := { name := "data.csv", content := [1, 2, 3] }

/-- Concrete supported upload used as a test vector. -/
def txtFile : UploadedFile := { name := "notes.txt", content := [104, 105] }

/-- A loader oracle that always succeeds with no segments. -/
def okLoad : Loader → List Nat → Except LoadError (List Document) :=
  fun _ _ => Except.ok []

/-- A chain oracle that always fails with an authentication error. -/
def authFailChain : String → List (String × String) → Except GenError String :=
  fun _ _ => Except.error GenError.authError

/-- A chain oracle that always answers with a fixed string. -/
def okChain : String → List (String × String) → Except GenError String :=
  fun _ _ => Except.ok "An answer."

/- ------------------------------------------------------------------ -/
/- Helper lemmas                                                       -/
/- ------------------------------------------------------------------ -/

/-- An extension outside the dispatch table selects no loader. -/
theorem selectLoader_eq_none_of_not_mem (ext : String)
    (h : ext ∉ ([".pdf", ".docx", ".doc", ".txt"] : List String)) :
    selectLoader ext = none := by
  simp only [List.mem_cons, List.not_mem_nil, or_false, not_or] at h
  obtain ⟨h1, h2, h3, h4⟩ := h
  simp [selectLoader, h1, h2, h3, h4]

/-- A file with no selected loader is skipped whole: empty contribution, no
raised failure, and the temporary file is left behind. -/
theorem ingest_file_unsupported (load : Loader → List Nat → Except LoadError (List Document))
    (f : UploadedFile) (h : selectLoader (splitext_ext f.name) = none) :
    ingest_file load f = { result := Except.ok [], temp_file_exists := true } := by
  simp [ingest_file, h]

/-
C1 — The spec asserts that the temporary file written during per-file
ingestion is removed on ALL exit paths.  In src/main.py lines 102-114 the
`os.remove(temp_file_path)` sits inside `if loader:` and after
`loader.load()`, so an unsupported extension (no loader selected) or a
raised parsing failure leaves the temporary file behind.
-/

/-- C1 (counterexample): uploading `data.csv` — an unsupported extension —
finishes the per-file ingestion step with the temporary file still in
existence, contradicting the claimed guaranteed cleanup on all exit
paths. -/
theorem unsupported_extension_leaves_temp_file :
    (ingest_file okLoad csvFile).temp_file_exists = true := by decide

/-- C1 (amended): the temporary file is removed exactly when the file's
extension selects a loader and that loader's parse succeeds; on an
unsupported extension or a raised parsing failure the temporary file
still exists when the per-file step finishes. -/
theorem temp_file_removed_iff_supported_and_load_ok
    (load : Loader → List Nat → Except LoadError (List Document)) (f : UploadedFile) :
    (ingest_file load f).temp_file_exists = false ↔
      ∃ k, selectLoader (splitext_ext f.name) = some k ∧
        ∃ docs, load k f.content = Except.ok docs := by
  unfold ingest_file
  cases hsel : selectLoader (splitext_ext f.name) with
  | none => simp [hsel]
  | some k =>
    cases hload : load k f.content with
    | error e => simp [hsel, hload]
    | ok docs => simp [hsel, hload]

/-- C1 (witness): for a supported `.txt` upload whose load succeeds, the
amended characterisation yields that the temporary file was removed. -/
theorem temp_file_removed_iff_witness :
    (ingest_file okLoad txtFile).temp_file_exists = false :=
  (temp_file_removed_iff_supported_and_load_ok okLoad txtFile).mpr
    ⟨Loader.textLoader, by decide, [], rfl⟩

/-
C3 — Unsupported extensions are silently skipped: they contribute no
segments, raise nothing, and removing them from the batch leaves the
ingested sequence untouched.
-/

/-- C3: ingesting a batch equals ingesting only its loader-supported files
(unsupported files change neither the segments nor the error behaviour),
and any file whose extension is not `.pdf`, `.docx`, `.doc` or `.txt`
yields the empty segment sequence without raising. -/
theorem unsupported_files_contribute_nothing
    (load : Loader → List Nat → Except LoadError (List Document))
    (files : List UploadedFile) :
    ingest_files load files =
      ingest_files load
        (files.filter (fun f => (selectLoader (splitext_ext f.name)).isSome)) ∧
    ∀ f : UploadedFile,
      splitext_ext f.name ∉ ([".pdf", ".docx", ".doc", ".txt"] : List String) →
      (ingest_file load f).result = Except.ok [] := by
  constructor
  · induction files with
    | nil => rfl
    | cons f fs ih =>
      cases hsel : selectLoader (splitext_ext f.name) with
      | none =>
        have hskip := ingest_file_unsupported load f hsel
        simp only [ingest_files, hskip, List.filter_cons, hsel, Option.isSome_none,
          Bool.false_eq_true, if_neg, reduceIte]
        rw [← ih]
        cases ingest_files load fs <;> simp
      | some k =>
        simp only [ingest_files, List.filter_cons, hsel, Option.isSome_some, if_pos, reduceIte]
        rw [ih]
  · intro f hf
    rw [ingest_file_unsupported load f (selectLoader_eq_none_of_not_mem _ hf)]

/-- C3 (witness): the `.csv` upload contributes the empty segment sequence
without raising, and dropping it from a concrete batch leaves the
ingested segments unchanged. -/
theorem unsupported_files_contribute_nothing_witness :
    ingest_files okLoad [csvFile, txtFile] =
      ingest_files okLoad
        ([csvFile, txtFile].filter
          (fun f => (selectLoader (splitext_ext f.name)).isSome)) ∧
    (ingest_file okLoad csvFile).result = Except.ok [] :=
  ⟨(unsupported_files_contribute_nothing okLoad [csvFile, txtFile]).1,
    (unsupported_files_contribute_nothing okLoad [csvFile, txtFile]).2 csvFile (by decide)⟩

/-
C2 — A failed generation-model invocation leaves the conversation history
(and the whole session) unchanged: in `conversation_chat`
(src/main.py lines 25-28) the `history.append` is only reached after the
chain call returns.
-/

/-- C2: if the chain invocation for a question turn fails, the failure
propagates out of `conversation_chat` and the submission leaves every
session field — in particular the history — exactly as it was. -/
theorem generation_failure_leaves_history_unchanged
    (chain : String → List (String × String) → Except GenError String)
    (q : String) (s : SessionState) (e : GenError)
    (h : chain q s.history = Except.error e) :
    conversation_chat q chain s.history = Except.error e ∧
      submit_question chain q s = s := by
  have hcc : conversation_chat q chain s.history = Except.error e := by
    simp [conversation_chat, h]
  refine ⟨hcc, ?_⟩
  by_cases hq : q = ""
  · simp [submit_question, hq]
  · simp [submit_question, hq, hcc]

/-- C2 (witness): a concrete authentication failure on the fresh session
leaves the session (hence the history and transcript) unchanged. -/
theorem generation_failure_witness :
    conversation_chat "hi" authFailChain init_session_state.history =
      Except.error GenError.authError ∧
    submit_question authFailChain "hi" init_session_state = init_session_state :=
  generation_failure_leaves_history_unchanged authFailChain "hi" init_session_state
    GenError.authError rfl

/-
C6 — The retrieval language model is constructed but never invoked: it is
a dead local of `create_conversational_chain` (src/main.py lines 55-59),
so the chain — and therefore every answer — is identical to that of a
builder that never constructs it.
-/

/-- C6: the chain built by `create_conversational_chain` is equal to the
chain built without constructing the retrieval language model, and hence
produces an identical output for every question, history and
generation-model behaviour. -/
theorem retriever_llm_never_invoked (vs : VectorStore) (key : String)
    (llmCall : HuggingFaceHub → String → Except GenError String)
    (q : String) (hist : List (String × String)) :
    create_conversational_chain vs key =
      create_conversational_chain_single_model vs key ∧
    (create_conversational_chain vs key).run llmCall q hist =
      (create_conversational_chain_single_model vs key).run llmCall q hist :=
  ⟨rfl, rfl⟩

/-
C10 — Submitting the question form with an empty question is a no-op:
`if submit_button and user_input:` (src/main.py line 40) short-circuits on
the empty string, so no chain call happens and no list is appended.
-/

/-- C10: an empty question submission leaves the session unchanged, and its
result does not depend on the chain at all (the generation model is not
invoked). -/
theorem empty_question_is_no_op
    (chain₁ chain₂ : String → List (String × String) → Except GenError String)
    (s : SessionState) :
    submit_question chain₁ "" s = s ∧
      submit_question chain₁ "" s = submit_question chain₂ "" s := by
  constructor <;> simp [submit_question]

/-
C7 — With no credential stored and none entered, `main` warns and returns
before the upload/ingestion/chat section (src/main.py lines 85-91).
-/

/-- C7: when the stored credential is empty (absent or blank) and the
credential text input is empty, `main` only prompts and warns: it returns
with the transcript and history fields untouched, the credential still
blank, and no ingestion, index build or chat-display action performed. -/
theorem missing_credential_blocks_processing
    (load : Loader → List Nat → Except LoadError (List Document))
    (faiss : List Document → VectorStore)
    (llmCall : HuggingFaceHub → String → Except GenError String)
    (user_input : String) (uploaded_files : List UploadedFile)
    (s : SessionState) (hkey : s.hf_api_key.getD "" = "") :
    main_step load faiss llmCall "" user_input uploaded_files s =
      Except.ok ({ s with hf_api_key := some "" },
        [MainAction.prompted_api_key, MainAction.warned_api_key]) := by
  simp [main_step, enter_api_key, hkey]

/-- C7 (witness): on the fresh session with an empty credential entry and a
pending upload and question, `main` still returns right after the warning
with no processing action. -/
theorem missing_credential_witness :
    main_step okLoad (fun _ => fun _ _ => []) (fun _ _ => Except.ok "ans")
        "" "What color is the sky?" [txtFile] init_session_state =
      Except.ok ({ init_session_state with hf_api_key := some "" },
        [MainAction.prompted_api_key, MainAction.warned_api_key]) :=
  missing_credential_blocks_processing okLoad (fun _ => fun _ _ => [])
    (fun _ _ => Except.ok "ans") "What color is the sky?" [txtFile]
    init_session_state rfl

/-
C8 — Chunker determinism: the modelled splitting operation is a pure
function of its input, so two runs over the same text sequence agree.
-/

/-- C8: splitting the same document sequence twice with the configured
splitter (separator `"\n"`, size 1000, overlap 100) yields byte-identical
chunk sequences. -/
theorem chunker_deterministic (docs : List Document) :
    split_documents docs = split_documents docs := rfl

/-
C4 — Every chunk produced by the Chunker stays within the configured
maximum size of 1000 characters.
-/

/-- Character windows never exceed the configured maximum size. -/
theorem windows_length_le (cs : List Char) : ∀ w ∈ windows cs, w.length ≤ chunk_size := by
  induction cs using windows.induct with
  | case1 cs h =>
    intro w hw
    rw [windows] at hw
    simp only [dif_pos h, List.mem_singleton] at hw
    exact hw ▸ h
  | case2 cs h ih =>
    intro w hw
    rw [windows] at hw
    simp only [dif_neg h, List.mem_cons] at hw
    rcases hw with rfl | hw
    · simp
    · exact ih w hw

/-- The overlap suffix of a nonempty window is nonempty (the overlap is
positive in the configured splitter). -/
theorem takeRight_ne_nil (l : List Char) (hl : l ≠ []) :
    takeRight chunk_overlap l ≠ [] := by
  unfold takeRight
  intro h
  rw [List.drop_eq_nil_iff] at h
  have : l.length ≠ 0 := fun h0 => hl (List.length_eq_zero.mp h0)
  simp only [chunk_overlap] at h
  omega

/-- Every window emitted by the packing pass stays within the configured
maximum size, provided the window under construction does. -/
theorem packSegs_length_le (segs : List (List Char)) :
    ∀ current : List Char, current.length ≤ chunk_size →
      ∀ c ∈ packSegs segs current, c.length ≤ chunk_size := by
  induction segs with
  | nil =>
    intro current hc c hmem
    simp only [packSegs] at hmem
    split at hmem
    · simp at hmem
    · simp only [List.mem_singleton] at hmem
      exact hmem ▸ hc
  | cons seg rest ih =>
    intro current hc c hmem
    by_cases hemp : current = []
    · subst hemp
      by_cases hs : seg.length ≤ chunk_size
      · simp only [packSegs, List.isEmpty_nil, if_pos, hs, reduceIte] at hmem
        exact ih seg hs c hmem
      · simp only [packSegs, List.isEmpty_nil, takeRight, List.drop_nil, hs,
          reduceIte, List.nil_append] at hmem
        rcases List.mem_append.mp hmem with hmem | hmem
        · exact windows_length_le seg c hmem
        · exact ih [] (by simp [chunk_size]) c hmem
    · have hempb : current.isEmpty = false := by
        simpa using hemp
      by_cases hj : (current ++ '\n' :: seg).length ≤ chunk_size
      · simp only [packSegs, hempb, Bool.false_eq_true, if_neg, hj, reduceIte] at hmem
        exact ih _ hj c hmem
      · have hkeepb : (takeRight chunk_overlap current).isEmpty = false := by
          simpa using takeRight_ne_nil current hemp
        by_cases hr : (takeRight chunk_overlap current ++ '\n' :: seg).length ≤ chunk_size
        · simp only [packSegs, hempb, hkeepb, Bool.false_eq_true, if_neg, hj, hr,
            reduceIte, List.singleton_append, List.mem_cons] at hmem
          rcases hmem with rfl | hmem
          · exact hc
          · exact ih _ hr c hmem
        · simp only [packSegs, hempb, hkeepb, Bool.false_eq_true, if_neg, hj, hr,
            reduceIte, List.singleton_append, List.mem_cons, List.mem_append] at hmem
          rcases hmem with (rfl | hmem) | hmem
          · exact hc
          · exact windows_length_le seg c hmem
          · exact ih [] (by simp [chunk_size]) c hmem

/-- Every chunk produced from one text stays within the configured size. -/
theorem split_text_length_le (s : String) :
    ∀ c ∈ split_text s, c.length ≤ chunk_size := by
  intro c hc
  simp only [split_text, List.mem_map] at hc
  obtain ⟨l, hl, rfl⟩ := hc
  exact packSegs_length_le (splitOnSep '\n' s.data) [] (by simp [chunk_size]) l hl

/-- C4: every chunk produced by the configured splitter (separator `"\n"`,
chunk size 1000, overlap 100, length in characters) over any loaded
document sequence has at most 1000 characters. -/
theorem chunk_length_le_chunk_size (docs : List Document) :
    (split_documents docs).all
      (fun d => decide (d.page_content.length ≤ chunk_size)) = true := by
  rw [List.all_eq_true]
  intro d hd
  simp only [split_documents, List.mem_flatMap, List.mem_map] at hd
  obtain ⟨src, _, c, hc, rfl⟩ := hd
  simpa using split_text_length_le src.page_content c hc

/-
C5 — After N successful turns the history has exactly the N (question,
answer) pairs, in submission order, and is only ever extended.
-/

/-- A successful turn appends exactly the (question, answer) pair. -/
theorem submit_question_ok (ans : String → List (String × String) → String)
    (q : String) (hq : q ≠ "") (s : SessionState) :
    submit_question (fun q' h => Except.ok (ans q' h)) q s =
      { s with history := s.history ++ [(q, ans q s.history)]
               past := s.past ++ [q]
               generated := s.generated ++ [ans q s.history] } := by
  simp [submit_question, conversation_chat, hq]

/-- One step of `run_turns`. -/
theorem run_turns_cons
    (chain : String → List (String × String) → Except GenError String)
    (q : String) (qs : List String) (s : SessionState) :
    run_turns chain (q :: qs) s = run_turns chain qs (submit_question chain q s) := rfl

/-- Any submission only ever extends the history (append-only). -/
theorem submit_question_extends_history
    (chain : String → List (String × String) → Except GenError String)
    (q : String) (s : SessionState) :
    ∃ t, (submit_question chain q s).history = s.history ++ t := by
  by_cases hq : q = ""
  · exact ⟨[], by simp [submit_question, hq]⟩
  · cases h : chain q s.history with
    | error e => exact ⟨[], by simp [submit_question, conversation_chat, hq, h]⟩
    | ok a => exact ⟨[(q, a)], by simp [submit_question, conversation_chat, hq, h]⟩

/-- Any run of submissions only ever extends the history. -/
theorem run_turns_extends_history
    (chain : String → List (String × String) → Except GenError String)
    (inputs : List String) :
    ∀ s : SessionState, ∃ t, (run_turns chain inputs s).history = s.history ++ t := by
  induction inputs with
  | nil => exact fun s => ⟨[], by simp [run_turns]⟩
  | cons q qs ih =>
    intro s
    obtain ⟨t₁, ht₁⟩ := submit_question_extends_history chain q s
    obtain ⟨t₂, ht₂⟩ := ih (submit_question chain q s)
    exact ⟨t₁ ++ t₂, by rw [run_turns_cons, ht₂, ht₁, List.append_assoc]⟩

/-- Along a run of successful non-empty turns, the history length grows by
one per turn. -/
theorem run_turns_history_length (ans : String → List (String × String) → String)
    (inputs : List String) :
    ∀ s : SessionState, (∀ q ∈ inputs, q ≠ "") →
      (run_turns (fun q' h => Except.ok (ans q' h)) inputs s).history.length =
        s.history.length + inputs.length := by
  induction inputs with
  | nil => intro s _; simp [run_turns]
  | cons q qs ih =>
    intro s hq
    rw [run_turns_cons, ih _ (fun x hx => hq x (List.mem_cons_of_mem q hx)),
      submit_question_ok ans q (hq q (List.mem_cons_self q qs)) s]
    simp only [List.length_append, List.length_cons, List.length_nil, List.length]
    omega

/-- Along a run of successful non-empty turns, the questions recorded in
the history follow the submission order. -/
theorem run_turns_history_map_fst (ans : String → List (String × String) → String)
    (inputs : List String) :
    ∀ s : SessionState, (∀ q ∈ inputs, q ≠ "") →
      (run_turns (fun q' h => Except.ok (ans q' h)) inputs s).history.map Prod.fst =
        s.history.map Prod.fst ++ inputs := by
  induction inputs with
  | nil => intro s _; simp [run_turns]
  | cons q qs ih =>
    intro s hq
    rw [run_turns_cons, ih _ (fun x hx => hq x (List.mem_cons_of_mem q hx)),
      submit_question_ok ans q (hq q (List.mem_cons_self q qs)) s]
    simp

/-- A run of turns decomposes at any cut point. -/
theorem run_turns_append
    (chain : String → List (String × String) → Except GenError String)
    (xs ys : List String) (s : SessionState) :
    run_turns chain (xs ++ ys) s = run_turns chain ys (run_turns chain xs s) := by
  unfold run_turns
  rw [List.foldl_append]

/-- C5: after N successful (non-empty, answered) question turns from an
empty history, the history has length exactly N, its recorded questions
are the submitted ones in submission order, and the history after any
earlier cut of the run is a prefix of the final history (earlier entries
are never modified or removed). -/
theorem history_after_successful_turns
    (ans : String → List (String × String) → String)
    (inputs : List String) (s : SessionState)
    (hq : ∀ q ∈ inputs, q ≠ "") (h0 : s.history = []) :
    (run_turns (fun q' h => Except.ok (ans q' h)) inputs s).history.length =
      inputs.length ∧
    (run_turns (fun q' h => Except.ok (ans q' h)) inputs s).history.map Prod.fst =
      inputs ∧
    ∀ n : Nat, ∃ t,
      (run_turns (fun q' h => Except.ok (ans q' h)) inputs s).history =
        (run_turns (fun q' h => Except.ok (ans q' h)) (inputs.take n) s).history ++ t := by
  refine ⟨?_, ?_, ?_⟩
  · rw [run_turns_history_length ans inputs s hq, h0]
    simp
  · rw [run_turns_history_map_fst ans inputs s hq, h0]
    simp
  · intro n
    have hdecomp := run_turns_append (fun q' h => Except.ok (ans q' h))
      (inputs.take n) (inputs.drop n) s
    rw [List.take_append_drop] at hdecomp
    rw [hdecomp]
    exact run_turns_extends_history _ (inputs.drop n) _

/-- C5 (witness): two concrete successful turns on the fresh session leave
a two-entry history carrying both questions in order, extending every
earlier cut of the run. -/
theorem history_after_successful_turns_witness :
    (run_turns (fun q' h => Except.ok ((fun _ _ => "An answer.") q' h))
      ["What color is the sky?", "And the grass?"] init_session_state).history.length =
        (["What color is the sky?", "And the grass?"] : List String).length ∧
    (run_turns (fun q' h => Except.ok ((fun _ _ => "An answer.") q' h))
      ["What color is the sky?", "And the grass?"] init_session_state).history.map
        Prod.fst = ["What color is the sky?", "And the grass?"] ∧
    ∀ n : Nat, ∃ t,
      (run_turns (fun q' h => Except.ok ((fun _ _ => "An answer.") q' h))
        ["What color is the sky?", "And the grass?"] init_session_state).history =
      (run_turns (fun q' h => Except.ok ((fun _ _ => "An answer.") q' h))
        ((["What color is the sky?", "And the grass?"] : List String).take n)
        init_session_state).history ++ t :=
  history_after_successful_turns (fun _ _ => "An answer.")
    ["What color is the sky?", "And the grass?"] init_session_state
    (by decide) rfl

/-
C9 — `past` and `generated` stay aligned (one greeting each, one entry per
successful turn), so the rendering loop never indexes out of bounds, and
the transcript holds one more pair than the turn history.
-/

/-- One form submission preserves the transcript-alignment invariant. -/
theorem submit_preserves_alignment
    (chain : String → List (String × String) → Except GenError String)
    (input : String) (s : SessionState)
    (hinv : s.past.length = s.generated.length ∧
      s.generated.length = s.history.length + 1) :
    (submit_question chain input s).past.length =
      (submit_question chain input s).generated.length ∧
    (submit_question chain input s).generated.length =
      (submit_question chain input s).history.length + 1 := by
  obtain ⟨h1, h2⟩ := hinv
  by_cases hq : input = ""
  · simpa [submit_question, hq] using ⟨h1, h2⟩
  · cases hc : chain input s.history with
    | error e => simpa [submit_question, conversation_chat, hq, hc] using ⟨h1, h2⟩
    | ok a =>
      simp only [submit_question, conversation_chat, hq, hc, ne_eq,
        not_false_iff, if_pos, List.length_append, List.length_cons,
        List.length_nil, reduceIte]
      omega

/-- The alignment invariant over all reachable session states. -/
theorem reachable_invariant (s : SessionState) (h : Reachable s) :
    s.past.length = s.generated.length ∧
      s.generated.length = s.history.length + 1 := by
  induction h with
  | init => simp [init_session_state]
  | enter_key entered h ih =>
    unfold enter_api_key
    split <;> simpa using ih
  | submit chain input h ih => exact submit_preserves_alignment chain input _ ih

/-- The rendering loop succeeds whenever every index it visits is in range
for both transcript lists. -/
theorem render_go_isSome (past generated : List String) (idxs : List Nat)
    (h : ∀ i ∈ idxs, i < past.length ∧ i < generated.length) :
    (render_go past generated idxs).isSome = true := by
  induction idxs with
  | nil => rfl
  | cons i is ih =>
    obtain ⟨hp, hg⟩ := h i (List.mem_cons_self i is)
    have h1 : past[i]? = some past[i] := List.getElem?_eq_getElem hp
    have h2 : generated[i]? = some generated[i] := List.getElem?_eq_getElem hg
    have hrest := ih (fun j hj => h j (List.mem_cons_of_mem i hj))
    simp only [render_go, h1, h2]
    cases hr : render_go past generated is with
    | none => rw [hr] at hrest; simp at hrest
    | some r => simp

/-- C9: in every reachable session state the `past` and `generated` lists
have equal length, one more than the turn history, and the transcript
rendering loop (indexing `past[i]` for every `i` below `len(generated)`)
never reads out of bounds. -/
theorem transcript_lists_aligned (s : SessionState) (h : Reachable s) :
    s.past.length = s.generated.length ∧
    s.generated.length = s.history.length + 1 ∧
    (render_transcript s).isSome = true := by
  obtain ⟨h1, h2⟩ := reachable_invariant s h
  refine ⟨h1, h2, ?_⟩
  unfold render_transcript
  apply render_go_isSome
  intro i hi
  rw [List.mem_range] at hi
  exact ⟨by omega, hi⟩

/-- C9 (witness): the invariant evaluated on the fresh session state. -/
theorem transcript_lists_aligned_witness :
    init_session_state.past.length = init_session_state.generated.length ∧
    init_session_state.generated.length = init_session_state.history.length + 1 ∧
    (render_transcript init_session_state).isSome = true :=
  transcript_lists_aligned init_session_state Reachable.init

end RagSpec

